import Mathlib

/-!
Shallow embedding of the lego-hub wireless protocol engine:
`message_header.py`, `lego_message.py` and the hub-state / motor-control
logic of `lego_hub.py`.  Byte buffers are modelled as `List Nat` (each
element a byte value), Python integers as `Int`/`Nat`, Python `dict`s as
insertion-ordered association lists, and Python exceptions as
`Except PyErr`.
-/

namespace LegoHub

/-- Python exceptions that the modelled code can raise: `ValueError`
(unknown enum value, byte out of range) and `IndexError` (indexing past
the end of a bytes object). -/
inductive PyErr where
  | valueError : PyErr
  | indexError : PyErr
deriving DecidableEq, Repr

/-- The `MessageType` enum of `message_header.py`. -/
inductive MessageType where
  | HUB_PROPERTIES : MessageType
  | HUB_ACTIONS : MessageType
  | HUB_ALERTS : MessageType
  | HUB_ATTACHED_IO : MessageType
  | GENERIC_ERROR_MESSAGES : MessageType
  | HW_NETWORK_COMMANDS : MessageType
  | FW_UPDATE_BOOT_MODE : MessageType
  | FW_UPDATE_LOCK_MEMORY : MessageType
  | FW_UPDATE_LOCK_STATUS_REQUEST : MessageType
  | FW_LOCK_STATUS : MessageType
  | PORT_INFORMATION_REQUEST : MessageType
  | PORT_MODE_INFORMATION_REQUEST : MessageType
  | PORT_INPUT_FORMAT_SETUP_SINGLE : MessageType
  | PORT_INPUT_FORMAT_SETUP_COMBINED : MessageType
  | PORT_INFORMATION : MessageType
  | PORT_MODE_INFORMATION : MessageType
  | PORT_VALUE_SINGLE : MessageType
  | PORT_VALUE_COMBINED : MessageType
  | PORT_INPUT_FORMAT_SINGLE : MessageType
  | PORT_INPUT_FORMAT_COMBINED : MessageType
  | PORT_OUTPUT_COMMAND : MessageType
  | PORT_OUTPUT_COMMAND_FEEDBACK : MessageType
deriving DecidableEq, Repr

/-- Numeric value of each `MessageType` member, exactly as in
`message_header.py`. -/
def MessageType.value : MessageType → Nat
  | MessageType.HUB_PROPERTIES => 0x01
  | MessageType.HUB_ACTIONS => 0x02
  | MessageType.HUB_ALERTS => 0x03
  | MessageType.HUB_ATTACHED_IO => 0x04
  | MessageType.GENERIC_ERROR_MESSAGES => 0x05
  | MessageType.HW_NETWORK_COMMANDS => 0x08
  | MessageType.FW_UPDATE_BOOT_MODE => 0x10
  | MessageType.FW_UPDATE_LOCK_MEMORY => 0x11
  | MessageType.FW_UPDATE_LOCK_STATUS_REQUEST => 0x12
  | MessageType.FW_LOCK_STATUS => 0x13
  | MessageType.PORT_INFORMATION_REQUEST => 0x21
  | MessageType.PORT_MODE_INFORMATION_REQUEST => 0x22
  | MessageType.PORT_INPUT_FORMAT_SETUP_SINGLE => 0x41
  | MessageType.PORT_INPUT_FORMAT_SETUP_COMBINED => 0x42
  | MessageType.PORT_INFORMATION => 0x43
  | MessageType.PORT_MODE_INFORMATION => 0x44
  | MessageType.PORT_VALUE_SINGLE => 0x45
  | MessageType.PORT_VALUE_COMBINED => 0x46
  | MessageType.PORT_INPUT_FORMAT_SINGLE => 0x47
  | MessageType.PORT_INPUT_FORMAT_COMBINED => 0x48
  | MessageType.PORT_OUTPUT_COMMAND => 0x81
  | MessageType.PORT_OUTPUT_COMMAND_FEEDBACK => 0x82

/-- Python `MessageType(n)`: the member with value `n`, or `none` when the
constructor call would raise `ValueError`. -/
def MessageType.ofValue : Nat → Option MessageType
  | 0x01 => some MessageType.HUB_PROPERTIES
  | 0x02 => some MessageType.HUB_ACTIONS
  | 0x03 => some MessageType.HUB_ALERTS
  | 0x04 => some MessageType.HUB_ATTACHED_IO
  | 0x05 => some MessageType.GENERIC_ERROR_MESSAGES
  | 0x08 => some MessageType.HW_NETWORK_COMMANDS
  | 0x10 => some MessageType.FW_UPDATE_BOOT_MODE
  | 0x11 => some MessageType.FW_UPDATE_LOCK_MEMORY
  | 0x12 => some MessageType.FW_UPDATE_LOCK_STATUS_REQUEST
  | 0x13 => some MessageType.FW_LOCK_STATUS
  | 0x21 => some MessageType.PORT_INFORMATION_REQUEST
  | 0x22 => some MessageType.PORT_MODE_INFORMATION_REQUEST
  | 0x41 => some MessageType.PORT_INPUT_FORMAT_SETUP_SINGLE
  | 0x42 => some MessageType.PORT_INPUT_FORMAT_SETUP_COMBINED
  | 0x43 => some MessageType.PORT_INFORMATION
  | 0x44 => some MessageType.PORT_MODE_INFORMATION
  | 0x45 => some MessageType.PORT_VALUE_SINGLE
  | 0x46 => some MessageType.PORT_VALUE_COMBINED
  | 0x47 => some MessageType.PORT_INPUT_FORMAT_SINGLE
  | 0x48 => some MessageType.PORT_INPUT_FORMAT_COMBINED
  | 0x81 => some MessageType.PORT_OUTPUT_COMMAND
  | 0x82 => some MessageType.PORT_OUTPUT_COMMAND_FEEDBACK
  | _ => none

/-- The `MessageHeader` class of `message_header.py`.  The constructor
always sets `hub_id = 0`. -/
structure MessageHeader where
  message_type : MessageType
  length : Nat
  hub_id : Nat
deriving DecidableEq, Repr

/-- `MessageHeader.from_bytes`: reads the message type from byte 2 and the
length from byte 0.  Python raises `IndexError` for a buffer shorter than
3 bytes and `ValueError` (from the `MessageType` constructor) for an
unrecognized type byte. -/
def MessageHeader.from_bytes (b : List Nat) : Except PyErr MessageHeader :=
  match b[2]? with
  | none => Except.error PyErr.indexError
  | some t =>
    match MessageType.ofValue t with
    | none => Except.error PyErr.valueError
    | some mt =>
      match b[0]? with
      | none => Except.error PyErr.indexError
      | some l => Except.ok { message_type := mt, length := l, hub_id := 0 }

/-- `MessageHeader.bytes`: `bytes([length, hub_id, message_type.value])`.
Python's `bytes(...)` raises `ValueError` when any element is above 255. -/
def MessageHeader.bytes (h : MessageHeader) : Except PyErr (List Nat) :=
  if h.length ≤ 255 ∧ h.hub_id ≤ 255 ∧ MessageType.value h.message_type ≤ 255 then
    Except.ok [h.length, h.hub_id, MessageType.value h.message_type]
  else Except.error PyErr.valueError

/-- The `LegoMessage` class of `lego_message.py`: a header plus payload. -/
structure LegoMessage where
  header : MessageHeader
  payload : List Nat
deriving DecidableEq, Repr

/-- Python's `length or (3 + len(payload))` default in the `LegoMessage`
constructor: `None` and `0` are both falsy, so either selects
`3 + len(payload)`. -/
def pyOrLen (len? : Option Nat) (payload : List Nat) : Nat :=
  match len? with
  | none => 3 + payload.length
  | some l => if l = 0 then 3 + payload.length else l

/-- The `LegoMessage` constructor `LegoMessage(message_type, payload, length)`. -/
def LegoMessage.make (mt : MessageType) (payload : List Nat) (len? : Option Nat) :
    LegoMessage :=
  { header := { message_type := mt, length := pyOrLen len? payload, hub_id := 0 }
    payload := payload }

/-- `LegoMessage.from_bytes`: decode header, then slice
`bytes[3:header.length]` as the payload. -/
def LegoMessage.from_bytes (b : List Nat) : Except PyErr LegoMessage :=
  match MessageHeader.from_bytes b with
  | Except.error e => Except.error e
  | Except.ok h =>
    Except.ok (LegoMessage.make h.message_type ((b.drop 3).take (h.length - 3))
      (some h.length))

/-- `LegoMessage.to_bytes`: `header.bytes() + payload`. -/
def LegoMessage.to_bytes (m : LegoMessage) : Except PyErr (List Nat) :=
  Except.map (fun hb => hb ++ m.payload) (MessageHeader.bytes m.header)

/-- Frame encoding as used throughout `lego_hub.py`:
`LegoMessage(message_type, payload).to_bytes()`. -/
def encodeFrame (mt : MessageType) (payload : List Nat) : Except PyErr (List Nat) :=
  LegoMessage.to_bytes (LegoMessage.make mt payload none)

/-- Lowercase hexadecimal digit character, as produced by Python's
`hex`/`%x` formatting. -/
def hexDigitChar (n : Nat) : Char :=
  if n < 10 then Char.ofNat (48 + n) else if n < 16 then Char.ofNat (87 + n) else '?'

/-- Python's `bytes.hex()` for a single byte: exactly two lowercase hex
digits. -/
def byteHex (b : Nat) : String :=
  String.mk [hexDigitChar (b / 16 % 16), hexDigitChar (b % 16)]

/-- Python's `bytes.hex()`: two lowercase hex digits per byte. -/
def bytesHex (l : List Nat) : String :=
  String.join (l.map byteHex)

/-- Python's `f"{n:04x}"`: lowercase hex, zero-padded to at least four
digits. -/
def hex4 (n : Nat) : String :=
  let ds := Nat.toDigits 16 n
  String.mk (List.replicate (4 - ds.length) '0' ++ ds)

/-- Python's `f"{n:0Wd}"`: decimal, zero-padded to at least `w` digits. -/
def padDec (w n : Nat) : String :=
  let s := Nat.repr n
  String.mk (List.replicate (w - s.length) '0') ++ s

/-- The Unicode replacement character used by Python's
`errors="replace"` UTF-8 decoding. -/
def replChar : Char := Char.ofNat 0xFFFD

/-- UTF-8 continuation byte test (`0x80..0xBF`). -/
def isContByte (b : Nat) : Bool := 0x80 ≤ b && b ≤ 0xBF

/-- Validity of the second byte of a three-byte UTF-8 sequence (excludes
overlong encodings and surrogates, as CPython's decoder does). -/
def utf8Second3 (b0 b1 : Nat) : Bool :=
  if b0 = 0xE0 then 0xA0 ≤ b1 && b1 ≤ 0xBF
  else if b0 = 0xED then 0x80 ≤ b1 && b1 ≤ 0x9F
  else isContByte b1

/-- Validity of the second byte of a four-byte UTF-8 sequence (excludes
overlong encodings and values above U+10FFFF). -/
def utf8Second4 (b0 b1 : Nat) : Bool :=
  if b0 = 0xF0 then 0x90 ≤ b1 && b1 ≤ 0xBF
  else if b0 = 0xF4 then 0x80 ≤ b1 && b1 ≤ 0x8F
  else isContByte b1

/-- Python's `bytes.decode("utf-8", errors="replace")`: decode UTF-8,
substituting U+FFFD for invalid sequences and continuing at the next
byte.  (CPython coalesces some maximal invalid subsequences into a single
replacement; this model emits one replacement per failed lead byte, which
no tracked behaviour of the hub code depends on.) -/
def pyUtf8Aux : Nat → List Nat → List Char
  | 0, _ => []
  | _, [] => []
  | fuel + 1, b0 :: rest =>
    if b0 < 0x80 then Char.ofNat b0 :: pyUtf8Aux fuel rest
    else if 0xC2 ≤ b0 && b0 ≤ 0xDF then
      match rest with
      | b1 :: r2 =>
        if isContByte b1 then
          Char.ofNat ((b0 - 0xC0) * 64 + (b1 - 0x80)) :: pyUtf8Aux fuel r2
        else replChar :: pyUtf8Aux fuel rest
      | [] => [replChar]
    else if 0xE0 ≤ b0 && b0 ≤ 0xEF then
      match rest with
      | b1 :: b2 :: r3 =>
        if utf8Second3 b0 b1 && isContByte b2 then
          Char.ofNat ((b0 - 0xE0) * 4096 + (b1 - 0x80) * 64 + (b2 - 0x80)) ::
            pyUtf8Aux fuel r3
        else replChar :: pyUtf8Aux fuel rest
      | _ => replChar :: pyUtf8Aux fuel rest
    else if 0xF0 ≤ b0 && b0 ≤ 0xF4 then
      match rest with
      | b1 :: b2 :: b3 :: r4 =>
        if utf8Second4 b0 b1 && isContByte b2 && isContByte b3 then
          Char.ofNat ((b0 - 0xF0) * 262144 + (b1 - 0x80) * 4096 +
            (b2 - 0x80) * 64 + (b3 - 0x80)) :: pyUtf8Aux fuel r4
        else replChar :: pyUtf8Aux fuel rest
      | _ => replChar :: pyUtf8Aux fuel rest
    else replChar :: pyUtf8Aux fuel rest

/-- Python's `bytes.decode("utf-8", errors="replace")`, producing a
string.  The fuel (one unit per decoded character, bounded by the input
length) only serves termination; it never runs out. -/
def pyDecodeReplace (l : List Nat) : String := String.mk (pyUtf8Aux l.length l)

/-- Whitespace characters stripped by Python's `str.strip()`. -/
def isPySpace (c : Char) : Bool :=
  c == ' ' || c == '\t' || c == '\n' || c == '\r' || c == '\x0b' || c == '\x0c'

/-- Python's `str.strip()`: remove leading and trailing whitespace. -/
def pyStrip (s : String) : String :=
  String.mk (((s.data.dropWhile isPySpace).reverse.dropWhile isPySpace).reverse)

/-- Python's `int.from_bytes(b, "little", signed=True)` for exactly four
bytes. -/
def leS32 (b0 b1 b2 b3 : Nat) : Int :=
  let v : Nat := b0 + 256 * b1 + 65536 * b2 + 16777216 * b3
  if v < 2147483648 then (v : Int) else (v : Int) - 4294967296

/-- Python's `max(lo, min(hi, x))` clamping pattern from
`_send_drive_command` and `set_lights`. -/
def clampI (lo hi x : Int) : Int := max lo (min hi x)

/-- Python's `x & 0xFF` on an arbitrary signed integer: the low byte,
i.e. the two's-complement byte encoding for `x` in `[-128, 127]`. -/
def byteOf (x : Int) : Nat := (x % 256).toNat

/-- Key of the Python `properties` dict: known property IDs map to string
names via the module-level `HUB_PROPERTIES` table, unknown IDs would be
used raw (`HUB_PROPERTIES.get(prop_id, prop_id)`). -/
inductive PropKey where
  | name : String → PropKey
  | raw : Nat → PropKey
deriving DecidableEq, Repr

/-- Value stored in the Python `properties` dict: decoded strings or the
battery percentage byte. -/
inductive PropVal where
  | str : String → PropVal
  | num : Nat → PropVal
deriving DecidableEq, Repr

/-- `HUB_PROPERTIES.get(prop_id, prop_id)` from `lego_hub.py`. -/
def hubPropGet (pid : Nat) : PropKey :=
  if pid = 0x01 then PropKey.name "name"
  else if pid = 0x03 then PropKey.name "firmware_version"
  else if pid = 0x04 then PropKey.name "hardware_version"
  else if pid = 0x06 then PropKey.name "battery"
  else if pid = 0x08 then PropKey.name "manufacturer"
  else PropKey.raw pid

/-- Insertion-ordered dict assignment `m[k] = v`: overwrite in place when
the key exists, append otherwise. -/
def propSet (m : List (PropKey × PropVal)) (k : PropKey) (v : PropVal) :
    List (PropKey × PropVal) :=
  if m.any (fun p => decide (p.1 = k)) then
    m.map (fun p => if p.1 = k then (k, v) else p)
  else m ++ [(k, v)]

/-- Insertion-ordered dict assignment for the attached-IO map. -/
def dictSet (m : List (Nat × String)) (k : Nat) (v : String) :
    List (Nat × String) :=
  if m.any (fun p => decide (p.1 = k)) then
    m.map (fun p => if p.1 = k then (k, v) else p)
  else m ++ [(k, v)]

/-- Python `dict.pop(k, None)`: remove the entry for `k` if present. -/
def dictPop (m : List (Nat × String)) (k : Nat) : List (Nat × String) :=
  m.filter (fun p => decide (p.1 ≠ k))

/-- The mutable state of a `LegoHub` object that the protocol handlers
touch: `name`, `properties`, `attached_io`, `_encoder_value` and the
class-level `_current_speed` / `_current_steering` / `_current_lights`
fields (named `speed`, `steering`, `lights` here). -/
structure HubState where
  name : Option String
  properties : List (PropKey × PropVal)
  attachedIoMap : List (Nat × String)
  encoderValue : Option Int
  speed : Int
  steering : Int
  lights : Int
deriving DecidableEq, Repr

/-- The state of a freshly constructed `LegoHub`. -/
def initState : HubState :=
  { name := none, properties := [], attachedIoMap := [], encoderValue := none
    speed := 0, steering := 0, lights := 0 }

/-- `LegoHub._parse_version`: short inputs are rendered as their hex
string, otherwise the dotted
`"{major}.{minor}.{bugfix:02d}.{build:04d}"` format. -/
def parse_version (data : List Nat) : String :=
  if data.length < 4 then bytesHex data
  else
    let b3 := data.getD 3 0
    let b2 := data.getD 2 0
    let b1 := data.getD 1 0
    let b0 := data.getD 0 0
    Nat.repr (b3 >>> 4) ++ "." ++ Nat.repr (b3 &&& 0x0f) ++ "." ++
      padDec 2 b2 ++ "." ++ padDec 4 ((b1 <<< 8) ||| b0)

/-- `LegoHub._handle_port_value`: record the signed little-endian 32-bit
encoder value when the port is the steering port (52). -/
def handle_port_value (payload : List Nat) (s : HubState) : HubState :=
  if 5 ≤ payload.length then
    let port := payload.getD 0 0
    let value := leS32 (payload.getD 1 0) (payload.getD 2 0)
      (payload.getD 3 0) (payload.getD 4 0)
    if port = 52 then { s with encoderValue := some value } else s
  else s

/-- `LegoHub._handle_property_response`.  `payload[0]` raises
`IndexError` on an empty payload; `value[0]` raises `IndexError` when a
battery payload has no value byte; property IDs outside the handled set
fall through every branch and leave the state untouched. -/
def handle_property_response (payload : List Nat) (s : HubState) :
    Except PyErr HubState :=
  match payload[0]? with
  | none => Except.error PyErr.indexError
  | some prop_id =>
    let value := payload.drop 2
    if prop_id = 0x03 ∨ prop_id = 0x04 then
      Except.ok { s with properties := (propSet s.properties (hubPropGet prop_id)
        (PropVal.str (parse_version value))) }
    else if prop_id = 0x06 then
      match value[0]? with
      | none => Except.error PyErr.indexError
      | some b => Except.ok { s with properties := (propSet s.properties
          (PropKey.name "battery") (PropVal.num b)) }
    else if prop_id = 0x01 ∨ prop_id = 0x08 then
      let decoded := pyStrip (pyDecodeReplace value)
      let s1 := { s with properties := (propSet s.properties (hubPropGet prop_id)
        (PropVal.str decoded)) }
      if prop_id = 0x01 then Except.ok { s1 with name := some decoded }
      else Except.ok s1
    else Except.ok s

/-- Modelled from the spec: the `IODeviceType` enum lives in
`io_device_type.py`, which is not among the provided sources.  The spec
only requires a lookup from a 16-bit device-type code to an optional
known name ("map the code to a known device-type name, or synthesize an
unknown label"); no claim depends on the table's contents, so the lookup
is modelled as finding no known name. -/
def ioDeviceName (code : Nat) : Option String :=
  if code < 0 then some "" else none

/-- `LegoHub._handle_attached_io`: `payload[0]`/`payload[1]` raise
`IndexError` on a payload shorter than 2 bytes; event `0x00` removes the
port, event `0x01` with at least 4 payload bytes records the device name
(or an `UNKNOWN_0x....` label), and any other event falls through. -/
def attachedIoHandler (payload : List Nat) (s : HubState) :
    Except PyErr HubState :=
  match payload[0]?, payload[1]? with
  | some port_id, some event =>
    if event = 0x00 then
      Except.ok { s with attachedIoMap := dictPop s.attachedIoMap port_id }
    else if event = 0x01 ∧ 4 ≤ payload.length then
      let io_type := payload.getD 2 0 + 256 * payload.getD 3 0
      let io_name :=
        match ioDeviceName io_type with
        | some n => n
        | none => "UNKNOWN_0x" ++ hex4 io_type
      Except.ok { s with attachedIoMap := dictSet s.attachedIoMap port_id io_name }
    else Except.ok s
  | _, _ => Except.error PyErr.indexError

/-- The message-type dispatch inside `LegoHub._handle_notification`. -/
def dispatchMsg (msg : LegoMessage) (s : HubState) : Except PyErr HubState :=
  if msg.header.message_type = MessageType.HUB_PROPERTIES then
    handle_property_response msg.payload s
  else if msg.header.message_type = MessageType.HUB_ATTACHED_IO then
    attachedIoHandler msg.payload s
  else if msg.header.message_type = MessageType.PORT_VALUE_SINGLE then
    Except.ok (handle_port_value msg.payload s)
  else Except.ok s

/-- `LegoHub._handle_notification`: decode, dispatch, and swallow every
exception (`try ... except Exception: pass`), so a failure leaves the
state exactly as it was. -/
def handle_notification (data : List Nat) (s : HubState) : HubState :=
  match LegoMessage.from_bytes data with
  | Except.error _ => s
  | Except.ok msg =>
    match dispatchMsg msg s with
    | Except.error _ => s
    | Except.ok s1 => s1

/-- `LegoHub._send_drive_command`: clamp and merge the given fields into
the current motor state, then emit the 13-byte combined-port frame for
port `0x36`. -/
def send_drive_command (s : HubState) (speed? steering? lights? : Option Int) :
    HubState × List Nat :=
  let s1 := match speed? with
    | some v => { s with speed := clampI (-100) 100 v }
    | none => s
  let s2 := match steering? with
    | some v => { s1 with steering := clampI (-100) 100 v }
    | none => s1
  let s3 := match lights? with
    | some v => { s2 with lights := clampI 0 100 v }
    | none => s2
  (s3, [0x0d, 0x00, 0x81, 0x36, 0x11, 0x51, 0x00, 0x03,
        0x00, byteOf s3.speed, byteOf s3.steering, byteOf s3.lights, 0x00])

/-- `LegoHub.drive(speed)`. -/
def drive (s : HubState) (speed : Int) : HubState × List (List Nat) :=
  let r := send_drive_command s (some speed) none none
  (r.1, [r.2])

/-- `LegoHub.steer(angle)`. -/
def steer (s : HubState) (angle : Int) : HubState × List (List Nat) :=
  let r := send_drive_command s none (some angle) none
  (r.1, [r.2])

/-- `LegoHub.stop()`: `_send_drive_command(speed=0, steering=0)`. -/
def stop (s : HubState) : HubState × List (List Nat) :=
  let r := send_drive_command s (some 0) (some 0) none
  (r.1, [r.2])

/-- `LegoHub.set_lights(brightness)`: clamp, send the direct port-53
frame, then send the combined frame via `_send_drive_command`. -/
def set_lights (s : HubState) (brightness : Int) : HubState × List (List Nat) :=
  let s1 := { s with lights := clampI 0 100 brightness }
  let direct : List Nat :=
    [0x08, 0x00, 0x81, 53, 0x11, 0x51, 0x00, byteOf s1.lights]
  let r := send_drive_command s1 none none (some s1.lights)
  (r.1, [direct, r.2])

/-- `LegoHub.brake()`: one frame with brake power 127 per drive motor
port (50 and 51), then reset speed and steering. -/
def brake (s : HubState) : HubState × List (List Nat) :=
  ({ s with speed := 0, steering := 0 },
   [[0x08, 0x00, 0x81, 50, 0x11, 0x51, 0x00, 127],
    [0x08, 0x00, 0x81, 51, 0x11, 0x51, 0x00, 127]])

/-- `LegoHub.release_brake()`: the same two per-port frames with coast
power 0, state untouched. -/
def release_brake (s : HubState) : HubState × List (List Nat) :=
  (s, [[0x08, 0x00, 0x81, 50, 0x11, 0x51, 0x00, 0],
       [0x08, 0x00, 0x81, 51, 0x11, 0x51, 0x00, 0]])

/-- `LegoHub.calibrate_steering()`: the two fixed combined-port frames
(sub-command `0x10` then `0x08`) and the reset of the motor state. -/
def calibrate_steering (s : HubState) : HubState × List (List Nat) :=
  ({ s with speed := 0, steering := 0, lights := 0 },
   [[0x0d, 0x00, 0x81, 0x36, 0x11, 0x51, 0x00, 0x03, 0x00, 0x00, 0x00, 0x10, 0x00],
    [0x0d, 0x00, 0x81, 0x36, 0x11, 0x51, 0x00, 0x03, 0x00, 0x00, 0x00, 0x08, 0x00]])

/-- An abstract motor-control call, for stating properties of call
sequences. -/
inductive DriveCmd where
  | driveCmd : Int → DriveCmd
  | steerCmd : Int → DriveCmd
  | lightsCmd : Int → DriveCmd
  | stopCmd : DriveCmd
deriving DecidableEq, Repr

/-- State transition of one motor-control call. -/
def applyCmd (s : HubState) (c : DriveCmd) : HubState :=
  match c with
  | DriveCmd.driveCmd v => (drive s v).1
  | DriveCmd.steerCmd v => (steer s v).1
  | DriveCmd.lightsCmd v => (set_lights s v).1
  | DriveCmd.stopCmd => (stop s).1

/-- The documented motor-state ranges: speed and steering in
`[-100, 100]`, lights in `[0, 100]`. -/
def MotorInRange (s : HubState) : Prop :=
  -100 ≤ s.speed ∧ s.speed ≤ 100 ∧ -100 ≤ s.steering ∧ s.steering ≤ 100 ∧
    0 ≤ s.lights ∧ s.lights ≤ 100

instance (s : HubState) : Decidable (MotorInRange s) := by
  unfold MotorInRange
  infer_instance

/-- The motor-state fields not named by a call keep their previous value
across that call. -/
def retainsUnnamed (c : DriveCmd) (s : HubState) : Prop :=
  match c with
  | DriveCmd.driveCmd _ =>
    (applyCmd s c).steering = s.steering ∧ (applyCmd s c).lights = s.lights
  | DriveCmd.steerCmd _ =>
    (applyCmd s c).speed = s.speed ∧ (applyCmd s c).lights = s.lights
  | DriveCmd.lightsCmd _ =>
    (applyCmd s c).speed = s.speed ∧ (applyCmd s c).steering = s.steering
  | DriveCmd.stopCmd => (applyCmd s c).lights = s.lights

/-! Helper lemmas -/

theorem mt_value_le (mt : MessageType) : MessageType.value mt ≤ 255 := by
  cases mt <;> decide

theorem mt_ofValue_value (mt : MessageType) :
    MessageType.ofValue (MessageType.value mt) = some mt := by
  cases mt <;> rfl

theorem from_bytes_cons (mt : MessageType) (L h1 : Nat) (rest : List Nat) :
    LegoMessage.from_bytes (L :: h1 :: MessageType.value mt :: rest) =
      Except.ok (LegoMessage.make mt (rest.take (L - 3)) (some L)) := by
  unfold LegoMessage.from_bytes MessageHeader.from_bytes
  simp only [List.getElem?_cons_succ, List.getElem?_cons_zero, mt_ofValue_value,
    List.drop_succ_cons, List.drop_zero]

theorem clampI_mem (lo hi x : Int) (h : lo ≤ hi) :
    lo ≤ clampI lo hi x ∧ clampI lo hi x ≤ hi :=
  ⟨le_max_left lo _, max_le h (min_le_left hi x)⟩

theorem clampI_eq_self (lo hi v : Int) (h1 : lo ≤ v) (h2 : v ≤ hi) :
    clampI lo hi v = v := by
  unfold clampI
  rw [min_eq_right h2, max_eq_right h1]

theorem clampI_idem (lo hi x : Int) (h : lo ≤ hi) :
    clampI lo hi (clampI lo hi x) = clampI lo hi x :=
  clampI_eq_self lo hi _ (clampI_mem lo hi x h).1 (clampI_mem lo hi x h).2

theorem byteOf_eq_toNat (x : Int) (h0 : 0 ≤ x) (h1 : x < 256) :
    byteOf x = Int.toNat x := by
  unfold byteOf
  rw [Int.emod_eq_of_lt h0 h1]

theorem applyCmd_mem (s : HubState) (c : DriveCmd) (h : MotorInRange s) :
    MotorInRange (applyCmd s c) := by
  obtain ⟨a1, a2, a3, a4, a5, a6⟩ := h
  cases c with
  | driveCmd v =>
    have hc := clampI_mem (-100) 100 v (by omega)
    exact ⟨hc.1, hc.2, a3, a4, a5, a6⟩
  | steerCmd v =>
    have hc := clampI_mem (-100) 100 v (by omega)
    exact ⟨a1, a2, hc.1, hc.2, a5, a6⟩
  | lightsCmd v =>
    have hc := clampI_mem 0 100 (clampI 0 100 v) (by omega)
    exact ⟨a1, a2, a3, a4, hc.1, hc.2⟩
  | stopCmd =>
    have hc := clampI_mem (-100) 100 0 (by omega)
    exact ⟨hc.1, hc.2, hc.1, hc.2, a5, a6⟩

theorem applyCmd_retains (c : DriveCmd) (t : HubState) : retainsUnnamed c t := by
  cases c with
  | driveCmd v => exact ⟨rfl, rfl⟩
  | steerCmd v => exact ⟨rfl, rfl⟩
  | lightsCmd v => exact ⟨rfl, rfl⟩
  | stopCmd => exact rfl

theorem foldl_applyCmd_mem (cs : List DriveCmd) (s : HubState)
    (h : MotorInRange s) : MotorInRange (List.foldl applyCmd s cs) := by
  induction cs generalizing s with
  | nil => exact h
  | cons c cs ih => exact ih (applyCmd s c) (applyCmd_mem s c h)

/-- A concrete in-range motor state used by witnesses. -/
def sampleState : HubState :=
  { initState with speed := 7, steering := -3, lights := 50 }

/-! Claim theorems -/

/-- Claim C1: from any in-range state, `drive`, `steer`, `stop` and
`set_lights` write a combined-port frame that is exactly the 13 bytes
`[0x0d, 0x00, 0x81, 0x36, 0x11, 0x51, 0x00, 0x03, 0x00, s, t, l, 0x00]`,
where `s` and `t` are the clamped current speed and steering as
two's-complement signed bytes (`byteOf`) and `l` is the clamped current
lights value as an unsigned byte; `set_lights` additionally writes its
direct port-53 frame first. -/
theorem combined_frame_layout (s : HubState) (v : Int) (h : MotorInRange s) :
    (drive s v).2 =
      [[0x0d, 0x00, 0x81, 0x36, 0x11, 0x51, 0x00, 0x03, 0x00,
        byteOf (clampI (-100) 100 v), byteOf s.steering, Int.toNat s.lights, 0x00]] ∧
    (steer s v).2 =
      [[0x0d, 0x00, 0x81, 0x36, 0x11, 0x51, 0x00, 0x03, 0x00,
        byteOf s.speed, byteOf (clampI (-100) 100 v), Int.toNat s.lights, 0x00]] ∧
    (stop s).2 =
      [[0x0d, 0x00, 0x81, 0x36, 0x11, 0x51, 0x00, 0x03, 0x00,
        0x00, 0x00, Int.toNat s.lights, 0x00]] ∧
    (set_lights s v).2 =
      [[0x08, 0x00, 0x81, 53, 0x11, 0x51, 0x00, Int.toNat (clampI 0 100 v)],
       [0x0d, 0x00, 0x81, 0x36, 0x11, 0x51, 0x00, 0x03, 0x00,
        byteOf s.speed, byteOf s.steering, Int.toNat (clampI 0 100 v), 0x00]] := by
  obtain ⟨a1, a2, a3, a4, a5, a6⟩ := h
  have hlights := byteOf_eq_toNat s.lights a5 (by omega)
  have hc0 : clampI (-100) 100 0 = 0 := clampI_eq_self _ _ _ (by omega) (by omega)
  have hcl := clampI_mem 0 100 v (by omega)
  have hclb := byteOf_eq_toNat (clampI 0 100 v) hcl.1 (by omega)
  have hidem : clampI 0 100 (clampI 0 100 v) = clampI 0 100 v :=
    clampI_idem 0 100 v (by omega)
  refine ⟨?_, ?_, ?_, ?_⟩
  · simp only [drive, send_drive_command]
    rw [hlights]
  · simp only [steer, send_drive_command]
    rw [hlights]
  · simp only [stop, send_drive_command]
    rw [hc0, hlights]
    rfl
  · simp only [set_lights, send_drive_command]
    rw [hidem, hclb]

/-- Witness for C1 at a concrete in-range state and argument 250. -/
theorem combined_frame_layout_witness :
    MotorInRange sampleState ∧
    ((drive sampleState 250).2 =
      [[0x0d, 0x00, 0x81, 0x36, 0x11, 0x51, 0x00, 0x03, 0x00,
        byteOf (clampI (-100) 100 250), byteOf sampleState.steering,
        Int.toNat sampleState.lights, 0x00]] ∧
    (steer sampleState 250).2 =
      [[0x0d, 0x00, 0x81, 0x36, 0x11, 0x51, 0x00, 0x03, 0x00,
        byteOf sampleState.speed, byteOf (clampI (-100) 100 250),
        Int.toNat sampleState.lights, 0x00]] ∧
    (stop sampleState).2 =
      [[0x0d, 0x00, 0x81, 0x36, 0x11, 0x51, 0x00, 0x03, 0x00,
        0x00, 0x00, Int.toNat sampleState.lights, 0x00]] ∧
    (set_lights sampleState 250).2 =
      [[0x08, 0x00, 0x81, 53, 0x11, 0x51, 0x00, Int.toNat (clampI 0 100 250)],
       [0x0d, 0x00, 0x81, 0x36, 0x11, 0x51, 0x00, 0x03, 0x00,
        byteOf sampleState.speed, byteOf sampleState.steering,
        Int.toNat (clampI 0 100 250), 0x00]]) :=
  ⟨by decide, combined_frame_layout sampleState 250 (by decide)⟩

/-- Claim C4: starting from any in-range state, along any sequence of
`drive` / `steer` / `set_lights` / `stop` calls with arbitrary integer
arguments, the motor state after every prefix stays in range (speed and
steering in `[-100, 100]`, lights in `[0, 100]`), and the `n`-th call
leaves every motor-state field it does not name exactly unchanged. -/
theorem motor_state_invariant (s : HubState) (h : MotorInRange s)
    (cs : List DriveCmd) (n : Nat) :
    MotorInRange (List.foldl applyCmd s (cs.take n)) ∧
    ∀ c, cs[n]? = some c →
      retainsUnnamed c (List.foldl applyCmd s (cs.take n)) := by
  refine ⟨foldl_applyCmd_mem (cs.take n) s h, ?_⟩
  intro c _
  exact applyCmd_retains c _

/-- Witness for C4 on a concrete three-call sequence with out-of-range
arguments. -/
theorem motor_state_invariant_witness :
    MotorInRange initState ∧
    (MotorInRange (List.foldl applyCmd initState
      (([DriveCmd.driveCmd 250, DriveCmd.steerCmd (-250),
         DriveCmd.lightsCmd 250]).take 1)) ∧
    ∀ c, ([DriveCmd.driveCmd 250, DriveCmd.steerCmd (-250),
         DriveCmd.lightsCmd 250])[1]? = some c →
      retainsUnnamed c (List.foldl applyCmd initState
        (([DriveCmd.driveCmd 250, DriveCmd.steerCmd (-250),
           DriveCmd.lightsCmd 250]).take 1))) :=
  ⟨by decide, motor_state_invariant initState (by decide)
    [DriveCmd.driveCmd 250, DriveCmd.steerCmd (-250), DriveCmd.lightsCmd 250] 1⟩

/-- Claim C2: for every recognized message type and every payload of at
most 252 bytes, encoding `(type, payload)` succeeds and decoding the
produced byte string yields a frame with the same message type and the
same payload, byte for byte. -/
theorem frame_roundtrip (mt : MessageType) (payload : List Nat)
    (hlen : payload.length ≤ 252) :
    ∃ raw msg,
      encodeFrame mt payload = Except.ok raw ∧
      LegoMessage.from_bytes raw = Except.ok msg ∧
      msg.header.message_type = mt ∧ msg.payload = payload := by
  refine ⟨(3 + payload.length) :: 0 :: MessageType.value mt :: payload,
    LegoMessage.make mt (payload.take (3 + payload.length - 3))
      (some (3 + payload.length)), ?_, ?_, rfl, ?_⟩
  · have hb : MessageHeader.bytes
        { message_type := mt, length := 3 + payload.length, hub_id := 0 } =
        Except.ok [3 + payload.length, 0, MessageType.value mt] := by
      simp only [MessageHeader.bytes]
      rw [if_pos ⟨(by omega : 3 + payload.length ≤ 255), by omega, mt_value_le mt⟩]
    simp only [encodeFrame, LegoMessage.to_bytes, LegoMessage.make, pyOrLen]
    rw [hb]
    rfl
  · exact from_bytes_cons mt (3 + payload.length) 0 payload
  · show List.take (3 + payload.length - 3) payload = payload
    rw [Nat.add_sub_cancel_left]
    exact List.take_length payload

/-- Witness for C2 at `HUB_PROPERTIES` with payload `[1, 5]`. -/
theorem frame_roundtrip_witness :
    ([1, 5] : List Nat).length ≤ 252 ∧
    ∃ raw msg,
      encodeFrame MessageType.HUB_PROPERTIES [1, 5] = Except.ok raw ∧
      LegoMessage.from_bytes raw = Except.ok msg ∧
      msg.header.message_type = MessageType.HUB_PROPERTIES ∧
      msg.payload = [1, 5] :=
  ⟨by decide, frame_roundtrip MessageType.HUB_PROPERTIES [1, 5] (by decide)⟩

/-- Claim C5: `calibrate_steering` sends exactly two combined-port
frames, first the start-calibration sub-command `0x10` and then the
end-calibration sub-command `0x08`, and resets the motor state to
`(speed = 0, steering = 0, lights = 0)` whatever it was before. -/
theorem calibration_two_frames (s : HubState) :
    (calibrate_steering s).2 =
      [[0x0d, 0x00, 0x81, 0x36, 0x11, 0x51, 0x00, 0x03, 0x00, 0x00, 0x00, 0x10, 0x00],
       [0x0d, 0x00, 0x81, 0x36, 0x11, 0x51, 0x00, 0x03, 0x00, 0x00, 0x00, 0x08, 0x00]] ∧
    (calibrate_steering s).1 = { s with speed := 0, steering := 0, lights := 0 } :=
  ⟨rfl, rfl⟩

/-- Claim C6: `brake()` emits exactly two single-port output frames, one
for drive-motor port 50 and one for port 51, each carrying the reserved
brake power value 127; it resets the speed and steering fields to 0 and
leaves the lights field (and the rest of the state) unchanged. -/
theorem brake_two_frames (s : HubState) :
    (brake s).2 =
      [[0x08, 0x00, 0x81, 50, 0x11, 0x51, 0x00, 127],
       [0x08, 0x00, 0x81, 51, 0x11, 0x51, 0x00, 127]] ∧
    (brake s).1 = { s with speed := 0, steering := 0 } ∧
    (brake s).1.lights = s.lights :=
  ⟨rfl, rfl, rfl⟩

theorem from_bytes_hub_id (b : List Nat) (m : LegoMessage)
    (h : LegoMessage.from_bytes b = Except.ok m) : m.header.hub_id = 0 := by
  unfold LegoMessage.from_bytes at h
  cases hh : MessageHeader.from_bytes b with
  | error e => rw [hh] at h; exact Except.noConfusion h
  | ok hd =>
    rw [hh] at h
    injection h with h2
    rw [← h2]
    rfl

theorem to_bytes_snd (m : LegoMessage) (raw : List Nat)
    (h : LegoMessage.to_bytes m = Except.ok raw) :
    raw[1]? = some m.header.hub_id := by
  unfold LegoMessage.to_bytes MessageHeader.bytes at h
  by_cases hc : m.header.length ≤ 255 ∧ m.header.hub_id ≤ 255 ∧
      MessageType.value m.header.message_type ≤ 255
  · rw [if_pos hc] at h
    cases h
    rfl
  · rw [if_neg hc] at h
    exact Except.noConfusion h

/-- Claim C3 counterexample: on the 5-byte buffer
`[0x05, 0x00, 0x99, 0x01, 0x02]`, whose third byte `0x99` is not a
recognized message-type value, frame decoding raises `ValueError` (the
`MessageType` constructor call) instead of returning a distinguishable
"unknown" result: no successfully decoded frame exists. -/
theorem decode_unknown_type_errors :
    LegoMessage.from_bytes [0x05, 0x00, 0x99, 0x01, 0x02] =
      Except.error PyErr.valueError ∧
    ∀ msg, LegoMessage.from_bytes [0x05, 0x00, 0x99, 0x01, 0x02] ≠
      Except.ok msg :=
  ⟨rfl, fun _ h => Except.noConfusion h⟩

/-- Claim C3 (amended): for every buffer of length at least 3 whose third
byte is not a recognized message-type value, frame decoding raises
`ValueError` rather than returning an "unknown" frame; the notification
handler catches the exception, so all tracked state (properties map,
attached-IO map, encoder value, motor state) is left unchanged. -/
theorem decode_unknown_type_state_unchanged (buf : List Nat) (s : HubState)
    (b2 : Nat) (hlen : 3 ≤ buf.length) (hb2 : buf[2]? = some b2)
    (hunk : MessageType.ofValue b2 = none) :
    LegoMessage.from_bytes buf = Except.error PyErr.valueError ∧
    handle_notification buf s = s := by
  have hfb : LegoMessage.from_bytes buf = Except.error PyErr.valueError := by
    unfold LegoMessage.from_bytes MessageHeader.from_bytes
    simp only [hb2, hunk]
  refine ⟨hfb, ?_⟩
  unfold handle_notification
  rw [hfb]

/-- Witness for the amended C3 at the buffer `[0x05, 0x00, 0x99, 0x01,
0x02]` and a concrete state. -/
theorem decode_unknown_type_state_unchanged_witness :
    (3 ≤ ([0x05, 0x00, 0x99, 0x01, 0x02] : List Nat).length) ∧
    (LegoMessage.from_bytes [0x05, 0x00, 0x99, 0x01, 0x02] =
      Except.error PyErr.valueError ∧
    handle_notification [0x05, 0x00, 0x99, 0x01, 0x02] sampleState =
      sampleState) :=
  ⟨by decide, decode_unknown_type_state_unchanged
    [0x05, 0x00, 0x99, 0x01, 0x02] sampleState 0x99 (by decide) rfl rfl⟩

/-- Claim C7 counterexample: a firmware-version property payload whose
value field is the single byte `0xAB` (fewer than 4 bytes) does not make
decoding fail; the handler succeeds and records the hex string `"ab"`. -/
theorem short_version_decodes_ok_cex :
    handle_property_response [0x03, 0x05, 0xAB] initState =
      Except.ok { initState with properties :=
        [(PropKey.name "firmware_version", PropVal.str "ab")] } ∧
    ∀ e, handle_property_response [0x03, 0x05, 0xAB] initState ≠
      Except.error e :=
  ⟨rfl, fun _ h => Except.noConfusion h⟩

/-- Claim C7 (amended): for every firmware-version (0x03) or
hardware-version (0x04) property payload whose value field has fewer
than 4 bytes, version decoding does not fail: the handler succeeds and
records the value's lowercase hex string in place of the formatted
version string. -/
theorem short_version_hex_recorded (s : HubState) (pid op : Nat)
    (value : List Nat) (hpid : pid = 0x03 ∨ pid = 0x04)
    (hlen : value.length < 4) :
    handle_property_response (pid :: op :: value) s =
      Except.ok { s with properties := (propSet s.properties (hubPropGet pid)
        (PropVal.str (bytesHex value))) } := by
  have hpv : parse_version value = bytesHex value := by
    unfold parse_version
    rw [if_pos hlen]
  simp only [handle_property_response, List.getElem?_cons_zero,
    List.drop_succ_cons, List.drop_zero]
  rw [if_pos hpid, hpv]

/-- Witness for the amended C7 at property ID 0x04 and value `[0xAB]`. -/
theorem short_version_hex_recorded_witness :
    (0x04 = 0x03 ∨ 0x04 = 0x04) ∧
    handle_property_response [0x04, 0x05, 0xAB] sampleState =
      Except.ok { sampleState with properties := (propSet sampleState.properties
        (hubPropGet 0x04) (PropVal.str (bytesHex [0xAB]))) } :=
  ⟨by decide, short_version_hex_recorded sampleState 0x04 0x05 [0xAB]
    (by decide) (by decide)⟩

/-- Claim C8 counterexample: a `HUB_PROPERTIES` response payload with the
unknown property ID 0x02 is handled without recording anything: from the
initial state (whose properties map is empty), the state is returned
unchanged, so no entry exists under the raw numeric key 2. -/
theorem unknown_property_discarded_cex :
    handle_property_response [0x02, 0x05, 0x42] initState =
      Except.ok initState ∧
    initState.properties = [] :=
  ⟨rfl, rfl⟩

/-- Claim C8 (amended): for every `HUB_PROPERTIES` response payload whose
property ID byte is not one of the known IDs (0x01, 0x03, 0x04, 0x06,
0x08), the handler discards the value: the state, including the
properties map, is left entirely unchanged. -/
theorem unknown_property_ignored (s : HubState) (pid op : Nat)
    (rest : List Nat) (h1 : pid ≠ 0x01) (h3 : pid ≠ 0x03) (h4 : pid ≠ 0x04)
    (h6 : pid ≠ 0x06) (h8 : pid ≠ 0x08) :
    handle_property_response (pid :: op :: rest) s = Except.ok s := by
  simp only [handle_property_response, List.getElem?_cons_zero]
  rw [if_neg (by simp [h3, h4]), if_neg h6, if_neg (by simp [h1, h8])]

/-- Witness for the amended C8 at property ID 0x02. -/
theorem unknown_property_ignored_witness :
    ((0x02 : Nat) ≠ 0x01) ∧
    handle_property_response [0x02, 0x05, 0x42] sampleState =
      Except.ok sampleState :=
  ⟨by decide, unknown_property_ignored sampleState 0x02 0x05 [0x42]
    (by decide) (by decide) (by decide) (by decide) (by decide)⟩

/-- Claim C9: frame decoding never depends on the hub-id byte: two
buffers of length at least 3 that differ only at index 1 decode to
identical results (same message type, length and payload), and every
decoded-then-re-encoded frame carries `0x00` at index 1. -/
theorem hub_id_independence (b1 b2 : List Nat)
    (h1 : 3 ≤ b1.length) (hlen : b1.length = b2.length)
    (hdiff : ∀ i, i < b1.length → i ≠ 1 → b1[i]? = b2[i]?) :
    LegoMessage.from_bytes b1 = LegoMessage.from_bytes b2 ∧
    ∀ m raw, LegoMessage.from_bytes b1 = Except.ok m →
      LegoMessage.to_bytes m = Except.ok raw → raw[1]? = some 0 := by
  have hall : ∀ i, i ≠ 1 → b1[i]? = b2[i]? := by
    intro i hi
    by_cases hlt : i < b1.length
    · exact hdiff i hlt hi
    · rw [List.getElem?_eq_none (by omega), List.getElem?_eq_none (by omega)]
  have hdrop : b1.drop 3 = b2.drop 3 := by
    apply List.ext_getElem?
    intro i
    rw [List.getElem?_drop, List.getElem?_drop]
    exact hall (3 + i) (by omega)
  have hfb : LegoMessage.from_bytes b1 = LegoMessage.from_bytes b2 := by
    unfold LegoMessage.from_bytes MessageHeader.from_bytes
    rw [hall 2 (by omega), hall 0 (by omega), hdrop]
  refine ⟨hfb, ?_⟩
  intro m raw hm hraw
  have hhub := from_bytes_hub_id b1 m hm
  have hsnd := to_bytes_snd m raw hraw
  rw [hhub] at hsnd
  exact hsnd

/-- Witness for C9 on two concrete buffers differing only in the hub-id
byte. -/
theorem hub_id_independence_witness :
    (3 ≤ ([0x05, 0x00, 0x01, 0x09, 0x09] : List Nat).length) ∧
    (LegoMessage.from_bytes [0x05, 0x00, 0x01, 0x09, 0x09] =
      LegoMessage.from_bytes [0x05, 0x4d, 0x01, 0x09, 0x09] ∧
    ∀ m raw, LegoMessage.from_bytes [0x05, 0x00, 0x01, 0x09, 0x09] =
        Except.ok m →
      LegoMessage.to_bytes m = Except.ok raw → raw[1]? = some 0) :=
  ⟨by decide, hub_id_independence [0x05, 0x00, 0x01, 0x09, 0x09]
    [0x05, 0x4d, 0x01, 0x09, 0x09] (by decide) (by decide) (by decide)⟩

/-- Claim C10: for every `HUB_ATTACHED_IO` payload of at least 2 bytes
whose event byte is neither 0x00 (detached) nor 0x01 (attached), the
handler raises no error and leaves the state, in particular the
attached-IO map, entirely unchanged. -/
theorem attached_other_event_noop (payload : List Nat) (s : HubState)
    (e : Nat) (hlen : 2 ≤ payload.length) (he : payload[1]? = some e)
    (h0 : e ≠ 0x00) (h1 : e ≠ 0x01) :
    attachedIoHandler payload s = Except.ok s := by
  obtain ⟨p0, hp0⟩ : ∃ p0, payload[0]? = some p0 :=
    ⟨_, List.getElem?_eq_getElem (by omega)⟩
  simp only [attachedIoHandler, hp0, he]
  rw [if_neg h0, if_neg (fun hc => h1 hc.1)]

/-- Witness for C10 at the attached-to-virtual-port event 0x02. -/
theorem attached_other_event_noop_witness :
    (2 ≤ ([0x07, 0x02] : List Nat).length) ∧
    attachedIoHandler [0x07, 0x02] sampleState = Except.ok sampleState :=
  ⟨by decide, attached_other_event_noop [0x07, 0x02] sampleState 0x02
    (by decide) rfl (by decide) (by decide)⟩

end LegoHub
